import Mathlib

/-!
# Shallow embedding of the `wwbridge` send-queue / registration protocol

This file embeds the core of `src/index.js` (class `WWBridge`) in Lean:
the send queue, the drain interval (`_utilizeQueue`), the registration
handshake (`_registerBridge` and the registration handler), the exposed
correlation storage (`pullOutDataById`, `_addData`), the transport
locator encoding (`_wrapSchema`) and inbound event construction
(`_createEvent`).

Payloads are treated abstractly: the code never inspects an outbound
payload, it only serializes it with `JSON.stringify` when the event is
delivered, so the embedding is parameterized by a payload type `P` and a
serialization function `stringify : P → String`.  Likewise `JSON.parse`
of inbound data is an external collaborator and is passed in as
`parse : String → Option J`.
-/

set_option maxRecDepth 4000

namespace WWBridge

/-- Source constant PROTOCOL_SCHEMA, the string "ww". -/
def PROTOCOL_SCHEMA : String := "ww"

/-- Source constant REGISTRATION_EVENT_NAME, the reserved sentinel "_register". -/
def REGISTRATION_EVENT_NAME : String := "_register"

/-- Source constant BRIDGE_SEND_EVENT, the string "bridgeSend". -/
def BRIDGE_SEND_EVENT : String := "bridgeSend"

/-- Source constant BRIDGE_REGISTER_EVENT, the string "bridgeRegister". -/
def BRIDGE_REGISTER_EVENT : String := "bridgeRegister"

/-- An element of `_sendQueue`: `{ name, data, id }` pushed by `send`.
`data` is `Option P` because `send` may be called without a data argument
(the constructor does `this.send(REGISTRATION_EVENT_NAME)`), in which case
the field holds JS `undefined`. -/
structure QueuedEvent (P : Type) where
  name : String
  data : Option P
  id : String
deriving DecidableEq, Repr

/-- Embedding of `_wrapSchema(eventName, id)`: the template literal
`` `${PROTOCOL_SCHEMA}://${eventName}/${id}` ``. -/
def wrapSchema (eventName : String) (id : String) : String :=
  PROTOCOL_SCHEMA ++ "://" ++ eventName ++ "/" ++ id

/-!
## Correlation storage

`window[EXPOSED_BRIDGE_NAME][STORAGE_KEY]` is a plain JS object mapping
correlation ids to `JSON.stringify`-ed payloads.  We model it as an
association list with unique keys; a stored value is `Option String`
because `JSON.stringify(undefined)` is itself `undefined`.
-/

/-- The JS object read `storage[id]`: the stored value when the key is
present, JS `undefined` (here `none`) when absent. -/
def storageGet (s : List (String × Option String)) (id : String) : Option String :=
  match s.find? (fun p => p.1 == id) with
  | some p => p.2
  | none => none

/-- The JS statement `delete storage[id]` (keys of a JS object are unique,
so dropping every pair with this key removes exactly that entry). -/
def storageDelete (s : List (String × Option String)) (id : String) :
    List (String × Option String) :=
  s.filter (fun p => p.1 != id)

/-- The JS assignment `storage[id] = v` in `_addData` (replaces any
existing entry for the key). -/
def storageSet (s : List (String × Option String)) (id : String) (v : Option String) :
    List (String × Option String) :=
  (id, v) :: s.filter (fun p => p.1 != id)

/-- Embedding of `pullOutDataById(id)` on the exposed bridge object:
`const data = storage[id]; delete storage[id]; return data;`.
Returns the read value together with the storage after the delete. -/
def pullOutDataById (s : List (String × Option String)) (id : String) :
    Option String × List (String × Option String) :=
  (storageGet s id, storageDelete s id)

/-!
## Inbound event construction (`_createEvent`)
-/

/-- The possible shapes of `evt.detail.data` on a dispatched custom event:
JS `undefined`, the raw (unparsed) string, or a parsed structured value. -/
inductive EvtData (J : Type) where
  | absent
  | raw (s : String)
  | parsed (j : J)
deriving DecidableEq, Repr

/-- A dispatched `CustomEvent`: its type and its `detail` fields. -/
structure CustomEvt (J : Type) where
  eventType : String
  name : String
  data : EvtData J
deriving DecidableEq, Repr

/-- Embedding of `_createEvent(eventType, name, data)`.  Starts from
`{ detail: { name, data } }` (so `detail.data` is the raw string, or
`undefined` when no data argument was given); when `data` is truthy it
tries `JSON.parse` and, on failure, logs an error and leaves `detail.data`
as the raw string.  The returned `Bool` records whether the parse error
was reported (`console.error`).  The function is total: no exception
escapes the `try`/`catch`. -/
def createEvent {J : Type} (parse : String → Option J)
    (eventType : String) (name : String) (data : Option String) :
    CustomEvt J × Bool :=
  match data with
  | none => (⟨eventType, name, EvtData.absent⟩, false)
  | some s =>
    if s = "" then (⟨eventType, name, EvtData.raw s⟩, false)
    else
      match parse s with
      | some j => (⟨eventType, name, EvtData.parsed j⟩, false)
      | none => (⟨eventType, name, EvtData.raw s⟩, true)

/-!
## Bridge state
-/

/-- The mutable state of one `WWBridge` instance together with the exposed
window-level storage.  `startedTasks` is a history variable counting the
`setInterval` calls made so far (the source keeps only the latest handle in
`this._interval`; the counter lets us state that no second concurrent task
is ever started). -/
structure BridgeState (P : Type) where
  /-- Field `_sendQueue` of the bridge. -/
  sendQueue : List (QueuedEvent P)
  /-- Field `_isBridgeRegistered` of the bridge. -/
  isBridgeRegistered : Bool
  /-- Field `_isBridgeRegistrationSent` of the bridge. -/
  isBridgeRegistrationSent : Bool
  /-- whether `this._interval` is non-null (a periodic task is active) -/
  intervalActive : Bool
  /-- history variable: how many times `setInterval` has been called -/
  startedTasks : Nat
  /-- whether `this._registerHandler` is attached as a `BRIDGE_SEND_EVENT`
  listener (non-null) -/
  registerHandlerAttached : Bool
  /-- Exposed correlation storage, the nested object of the window-level bridge. -/
  exposedStorage : List (String × Option String)
  /-- Field `_storage` of the bridge (payload merged from the registration reply). -/
  storage : List (String × String)
deriving DecidableEq, Repr

/-- Embedding of `_utilizeQueue()` up to the scheduling decision: if an interval is
already present do nothing, otherwise start the periodic task.  (The body
of the task is `tick` below.) -/
def utilizeQueue {P : Type} (st : BridgeState P) : BridgeState P :=
  if st.intervalActive then st
  else { st with intervalActive := true, startedTasks := st.startedTasks + 1 }

/-- Embedding of `send(name, data)`: push an event record with a freshly generated
id onto the queue, then `_utilizeQueue()`.  The generated id is passed in
explicitly (the generator is a pure function of entropy). -/
def send {P : Type} (st : BridgeState P) (name : String) (data : Option P)
    (freshId : String) : BridgeState P :=
  utilizeQueue { st with sendQueue := st.sendQueue ++ [⟨name, data, freshId⟩] }

/-- Delivery of a selected event (the `if (evt) { ... }` block of the tick):
set the iframe `src` to `wrapSchema name id` (the fire-and-forget transport
signal) and store `JSON.stringify(data)` in the exposed storage under the
id of the event (`_addData`). -/
def deliver {P : Type} (stringify : P → String) (st : BridgeState P)
    (e : QueuedEvent P) : BridgeState P :=
  { st with exposedStorage := storageSet st.exposedStorage e.id (e.data.map stringify) }

/-- One invocation of the `setInterval` callback inside `_utilizeQueue`.
Returns the new state and the event delivered this tick (if any).

* empty queue: `clearInterval`, `this._interval = null`, return;
* `this._isBridgeRegistered`: detach `_registerHandler` if still attached,
  then `evt = this._sendQueue.shift()`;
* else if `!this._isBridgeRegistrationSent`:
  `evt = remove(this._sendQueue, { name: REGISTRATION_EVENT_NAME })[0]`
  (lodash `remove` extracts **every** matching element, in order, and
  mutates the queue to keep the rest) and set `_isBridgeRegistrationSent`
  unconditionally;
* otherwise `evt` stays `undefined` and nothing is delivered. -/
def tick {P : Type} (stringify : P → String) (st : BridgeState P) :
    BridgeState P × Option (QueuedEvent P) :=
  if st.sendQueue.isEmpty then
    ({ st with intervalActive := false }, none)
  else if st.isBridgeRegistered then
    let st1 := if st.registerHandlerAttached then
      { st with registerHandlerAttached := false } else st
    match st1.sendQueue with
    | [] => (st1, none)
    | e :: rest => (deliver stringify { st1 with sendQueue := rest } e, some e)
  else if !st.isBridgeRegistrationSent then
    let matched := st.sendQueue.filter (fun e => e.name == REGISTRATION_EVENT_NAME)
    let rest := st.sendQueue.filter (fun e => e.name != REGISTRATION_EVENT_NAME)
    let st1 := { st with sendQueue := rest, isBridgeRegistrationSent := true }
    match matched.head? with
    | some e => (deliver stringify st1 e, some e)
    | none => (st1, none)
  else
    (st, none)

/-- The object spread `{ ...a, ...b }` on two parsed JSON objects: keys of
`b` win on collision. -/
def mergeObjects (a b : List (String × String)) : List (String × String) :=
  a.filter (fun p => (b.find? (fun q => q.1 == p.1)).isNone) ++ b

/-- The host calling `window.mobileBridge.send(name, data)`: a
`BRIDGE_SEND_EVENT` custom event is dispatched on the iframe; if
`_registerHandler` is (still) attached and the event name equals
`REGISTRATION_EVENT_NAME`, the handler sets `_isBridgeRegistered`, merges
the payload into `_storage` (`{ ...this._storage, ...(data || {}) }`) and
dispatches a `BRIDGE_REGISTER_EVENT` on the iframe.  `data` is the parsed
payload object of the notification.  Returns the new state and the list of
event types dispatched on the iframe (visible to attached listeners). -/
def hostSend {P : Type} (st : BridgeState P) (name : String)
    (data : List (String × String)) : BridgeState P × List String :=
  if st.registerHandlerAttached && name == REGISTRATION_EVENT_NAME then
    ({ st with isBridgeRegistered := true, storage := mergeObjects st.storage data },
     [BRIDGE_SEND_EVENT, BRIDGE_REGISTER_EVENT])
  else
    (st, [BRIDGE_SEND_EVENT])

/-- The state right after `new WWBridge(...)`: empty queue and storages,
both flags false, then `_registerBridge()` attaches the registration
handler and does `this.send(REGISTRATION_EVENT_NAME)` (no data argument),
which enqueues the registration event and starts the drain interval.
`regId` is the id generated for that registration event. -/
def initialBridge (P : Type) (regId : String) : BridgeState P :=
  send
    { sendQueue := []
      isBridgeRegistered := false
      isBridgeRegistrationSent := false
      intervalActive := false
      startedTasks := 0
      registerHandlerAttached := true
      exposedStorage := []
      storage := [] }
    REGISTRATION_EVENT_NAME none regId

/-!
## Traces
-/

/-- Run `n` consecutive drain ticks, collecting the delivered events in
order. -/
def runTicks {P : Type} (stringify : P → String) :
    Nat → BridgeState P → BridgeState P × List (QueuedEvent P)
  | 0, st => (st, [])
  | n + 1, st =>
    let r1 := tick stringify st
    let r2 := runTicks stringify n r1.1
    (r2.1, r1.2.toList ++ r2.2)

/-- Deliver a list of inbound host notifications (name, parsed payload) in
order, collecting every event type dispatched on the iframe. -/
def runInbound {P : Type} :
    BridgeState P → List (String × List (String × String)) → BridgeState P × List String
  | st, [] => (st, [])
  | st, (n, d) :: rest =>
    let r1 := hostSend st n d
    let r2 := runInbound r1.1 rest
    (r2.1, r1.2 ++ r2.2)

/-- Perform one `send` call per listed event (name, data and generated id
taken from the event). -/
def sendAll {P : Type} : BridgeState P → List (QueuedEvent P) → BridgeState P
  | st, [] => st
  | st, e :: es => sendAll (send st e.name e.data e.id) es

/-- One operation of the system, for stating invariants that hold under
every step: a drain tick, a `send` call, or an inbound host notification. -/
inductive Op (P : Type) where
  | tick
  | send (name : String) (data : Option P) (freshId : String)
  | inbound (name : String) (data : List (String × String))

/-- Apply one operation to the bridge state. -/
def applyOp {P : Type} (stringify : P → String) (st : BridgeState P) :
    Op P → BridgeState P
  | Op.tick => (tick stringify st).1
  | Op.send n d i => send st n d i
  | Op.inbound n d => (hostSend st n d).1

/-- Numeric rank of the registration state machine:
`Unregistered = 0`, `RegistrationSent = 1`, `Registered = 2`. -/
def regRank {P : Type} (st : BridgeState P) : Nat :=
  if st.isBridgeRegistered then 2
  else if st.isBridgeRegistrationSent then 1
  else 0

/-!
## Helper lemmas
-/

theorem find?_eq_head?_filter {α : Type} (p : α → Bool) (l : List α) :
    l.find? p = (l.filter p).head? := by
  induction l with
  | nil => rfl
  | cons a l ih =>
    cases h : p a with
    | true =>
      rw [List.find?_cons_of_pos _ h, List.filter_cons_of_pos h, List.head?_cons]
    | false =>
      rw [List.find?_cons_of_neg _ (by simp [h]), List.filter_cons_of_neg (by simp [h]), ih]

theorem storageGet_storageDelete (s : List (String × Option String)) (id : String) :
    storageGet (storageDelete s id) id = none := by
  induction s with
  | nil => rfl
  | cons a s ih =>
    by_cases h : a.1 = id
    · simpa [storageDelete, List.filter_cons, h] using ih
    · simpa [storageDelete, storageGet, List.filter_cons, List.find?_cons, h] using ih

theorem utilizeQueue_sendQueue {P : Type} (st : BridgeState P) :
    (utilizeQueue st).sendQueue = st.sendQueue := by
  unfold utilizeQueue; split <;> rfl

theorem utilizeQueue_isBridgeRegistered {P : Type} (st : BridgeState P) :
    (utilizeQueue st).isBridgeRegistered = st.isBridgeRegistered := by
  unfold utilizeQueue; split <;> rfl

theorem utilizeQueue_isBridgeRegistrationSent {P : Type} (st : BridgeState P) :
    (utilizeQueue st).isBridgeRegistrationSent = st.isBridgeRegistrationSent := by
  unfold utilizeQueue; split <;> rfl

@[simp] theorem deliver_sendQueue {P : Type} (f : P → String) (st : BridgeState P)
    (e : QueuedEvent P) : (deliver f st e).sendQueue = st.sendQueue := rfl

@[simp] theorem deliver_isBridgeRegistered {P : Type} (f : P → String) (st : BridgeState P)
    (e : QueuedEvent P) : (deliver f st e).isBridgeRegistered = st.isBridgeRegistered := rfl

@[simp] theorem deliver_isBridgeRegistrationSent {P : Type} (f : P → String)
    (st : BridgeState P) (e : QueuedEvent P) :
    (deliver f st e).isBridgeRegistrationSent = st.isBridgeRegistrationSent := rfl

@[simp] theorem deliver_startedTasks {P : Type} (f : P → String) (st : BridgeState P)
    (e : QueuedEvent P) : (deliver f st e).startedTasks = st.startedTasks := rfl

@[simp] theorem deliver_exposedStorage {P : Type} (f : P → String) (st : BridgeState P)
    (e : QueuedEvent P) :
    (deliver f st e).exposedStorage = storageSet st.exposedStorage e.id (e.data.map f) := rfl

/-- Branch lemma: tick on an empty queue stops the interval. -/
theorem tick_empty {P : Type} (f : P → String) (st : BridgeState P)
    (hq : st.sendQueue = []) :
    tick f st = ({ st with intervalActive := false }, none) := by
  simp [tick, hq]

/-- Branch lemma: tick when registered pops the head and detaches the
registration handler. -/
theorem tick_registered {P : Type} (f : P → String) (st : BridgeState P)
    (e : QueuedEvent P) (rest : List (QueuedEvent P))
    (hq : st.sendQueue = e :: rest) (hreg : st.isBridgeRegistered = true) :
    tick f st =
      (deliver f { st with registerHandlerAttached := false, sendQueue := rest } e,
       some e) := by
  obtain ⟨q, b1, b2, b3, n1, batt, s1, s2⟩ := st
  simp only at hq hreg
  subst hq hreg
  cases batt <;> simp [tick, deliver]

/-- Branch lemma: tick when unregistered and not yet sent, with a
registration-named event present: that (first) matching event is
delivered, every matching event is removed, the flag is set. -/
theorem tick_unreg_found {P : Type} (f : P → String) (st : BridgeState P)
    (e : QueuedEvent P)
    (hreg : st.isBridgeRegistered = false)
    (hsent : st.isBridgeRegistrationSent = false)
    (hf : st.sendQueue.find? (fun x => x.name == REGISTRATION_EVENT_NAME) = some e) :
    tick f st =
      (deliver f
        { st with
          sendQueue := st.sendQueue.filter (fun x => x.name != REGISTRATION_EVENT_NAME),
          isBridgeRegistrationSent := true } e,
       some e) := by
  have hh : (st.sendQueue.filter (fun x => x.name == REGISTRATION_EVENT_NAME)).head?
      = some e := by
    rw [← find?_eq_head?_filter]; exact hf
  have hne : st.sendQueue.isEmpty = false := by
    cases hq : st.sendQueue with
    | nil => rw [hq] at hf; simp at hf
    | cons a l => simp
  simp only [tick, hne, hreg, hsent, Bool.not_false, if_true, Bool.false_eq_true,
    if_false, ite_true, ite_false]
  rw [hh]

/-- Branch lemma: tick when unregistered and not yet sent, with no
registration-named event in the (non-empty) queue: nothing is delivered,
but the flag is still set. -/
theorem tick_unreg_not_found {P : Type} (f : P → String) (st : BridgeState P)
    (hreg : st.isBridgeRegistered = false)
    (hsent : st.isBridgeRegistrationSent = false)
    (hne : st.sendQueue.isEmpty = false)
    (hf : st.sendQueue.find? (fun x => x.name == REGISTRATION_EVENT_NAME) = none) :
    tick f st =
      ({ st with
          sendQueue := st.sendQueue.filter (fun x => x.name != REGISTRATION_EVENT_NAME),
          isBridgeRegistrationSent := true },
       none) := by
  have hh : (st.sendQueue.filter (fun x => x.name == REGISTRATION_EVENT_NAME)).head?
      = none := by
    rw [← find?_eq_head?_filter]; exact hf
  simp only [tick, hne, hreg, hsent, Bool.not_false, if_true, Bool.false_eq_true,
    if_false, ite_true, ite_false]
  rw [hh]

/-- Branch lemma: tick after the registration event was sent but before the
host acknowledged: nothing happens. -/
theorem tick_sent_waiting {P : Type} (f : P → String) (st : BridgeState P)
    (hreg : st.isBridgeRegistered = false)
    (hsent : st.isBridgeRegistrationSent = true)
    (hne : st.sendQueue.isEmpty = false) :
    tick f st = (st, none) := by
  simp [tick, hne, hreg, hsent]

theorem string_append_assoc (a b c : String) : (a ++ b) ++ c = a ++ (b ++ c) := by
  apply String.ext
  simp [String.data_append]

/-!
## Claim theorems
-/

/-- C9: for every event name and correlation id, the transport encoding
`_wrapSchema` produces exactly the string `ww://<eventName>/<correlationId>`,
with the scheme being the fixed constant `"ww"`. -/
theorem c9_locator_format (eventName id : String) :
    wrapSchema eventName id = "ww://" ++ eventName ++ "/" ++ id ∧
    PROTOCOL_SCHEMA = "ww" := by
  refine ⟨?_, rfl⟩
  have h : ("ww" ++ "://" : String) = "ww://" := rfl
  unfold wrapSchema PROTOCOL_SCHEMA
  rw [← h, string_append_assoc]

/-- C6: for every id `X` stored in the exposed correlation storage, the
first `pullOutDataById X` returns the serialized payload stored for `X` and
removes the entry; a second `pullOutDataById X` on the resulting storage
returns an absent result (and, being a total function, raises no error). -/
theorem c6_pull_out_at_most_once (s : List (String × Option String)) (id : String)
    (v : String) (h : storageGet s id = some v) :
    pullOutDataById s id = (some v, storageDelete s id) ∧
    (pullOutDataById (pullOutDataById s id).2 id).1 = none := by
  constructor
  · simp [pullOutDataById, h]
  · simp [pullOutDataById, storageGet_storageDelete]

/-- Witness for C6 at a concrete storage. -/
theorem c6_pull_out_at_most_once_witness :
    pullOutDataById [("a1b2", some "payloadJson")] "a1b2"
        = (some "payloadJson", storageDelete [("a1b2", some "payloadJson")] "a1b2") ∧
    (pullOutDataById (pullOutDataById [("a1b2", some "payloadJson")] "a1b2").2 "a1b2").1
        = none :=
  c6_pull_out_at_most_once [("a1b2", some "payloadJson")] "a1b2" "payloadJson" (by rfl)

/-- A concrete bridge state: unregistered, registration not yet marked
sent, and a queue holding a single ordinary (non-registration) event. -/
def noRegEventState : BridgeState Unit :=
  { sendQueue := [⟨"ping", none, "i1"⟩]
    isBridgeRegistered := false
    isBridgeRegistrationSent := false
    intervalActive := true
    startedTasks := 1
    registerHandlerAttached := true
    exposedStorage := []
    storage := [] }

/-- C4 counterexample: in a state that is not registered, has the sent
flag false and a non-empty queue with no registration-named event, a tick
sets `_isBridgeRegistrationSent` to `true` — the code sets the flag
unconditionally, contradicting the claim that the flag stays false when
no registration event is delivered.  (Delivery and the queue do behave as
claimed: nothing is delivered and the queue is unchanged.) -/
theorem c4_counterexample :
    (tick (fun _ : Unit => "") noRegEventState).1.isBridgeRegistrationSent = true ∧
    (tick (fun _ : Unit => "") noRegEventState).2 = none ∧
    (tick (fun _ : Unit => "") noRegEventState).1.sendQueue
      = noRegEventState.sendQueue := by
  refine ⟨rfl, rfl, rfl⟩

/-- C4 amended: in every state that is not registered with the sent flag
false, a tick on a non-empty queue containing no registration-named event
delivers nothing and leaves the queue unchanged, but sets
`_isBridgeRegistrationSent` to `true` unconditionally. -/
theorem c4_no_registration_event_tick {P : Type} (f : P → String)
    (st : BridgeState P)
    (hreg : st.isBridgeRegistered = false)
    (hsent : st.isBridgeRegistrationSent = false)
    (hne : st.sendQueue.isEmpty = false)
    (hf : st.sendQueue.find? (fun x => x.name == REGISTRATION_EVENT_NAME) = none) :
    tick f st = ({ st with isBridgeRegistrationSent := true }, none) := by
  rw [tick_unreg_not_found f st hreg hsent hne hf]
  have : st.sendQueue.filter (fun x => x.name != REGISTRATION_EVENT_NAME)
      = st.sendQueue := by
    rw [List.filter_eq_self]
    intro a ha
    have := List.find?_eq_none.mp hf a ha
    simpa using this
  rw [this]

/-- Witness for the amended C4 at a concrete state. -/
theorem c4_no_registration_event_tick_witness :
    tick (fun _ : Unit => "") noRegEventState
      = ({ noRegEventState with isBridgeRegistrationSent := true }, none) :=
  c4_no_registration_event_tick (fun _ : Unit => "") noRegEventState rfl rfl rfl rfl

/-- C8: at most one periodic drain task per bridge instance: a `send` while
the interval is active starts no second task (`startedTasks` does not grow
and the task stays active); a tick on an empty queue stops and releases the
task without starting another; a `send` while no task is active starts
exactly one new task. -/
theorem c8_single_periodic_task {P : Type} (f : P → String)
    (st1 st2 st3 : BridgeState P)
    (h1 : st1.intervalActive = true)
    (h2 : st2.sendQueue = [])
    (h3 : st3.intervalActive = false)
    (n1 n3 : String) (d1 d3 : Option P) (i1 i3 : String) :
    ((send st1 n1 d1 i1).intervalActive = true ∧
      (send st1 n1 d1 i1).startedTasks = st1.startedTasks) ∧
    ((tick f st2).1.intervalActive = false ∧
      (tick f st2).1.startedTasks = st2.startedTasks) ∧
    ((send st3 n3 d3 i3).intervalActive = true ∧
      (send st3 n3 d3 i3).startedTasks = st3.startedTasks + 1) := by
  refine ⟨⟨?_, ?_⟩, ⟨?_, ?_⟩, ⟨?_, ?_⟩⟩
  · simp [send, utilizeQueue, h1]
  · simp [send, utilizeQueue, h1]
  · rw [tick_empty f st2 h2]
  · rw [tick_empty f st2 h2]
  · simp [send, utilizeQueue, h3]
  · simp [send, utilizeQueue, h3]

/-- C1: while the bridge is not registered and the registration event has
not yet been sent, a tick on a queue containing a registration-named event
delivers exactly the first such event, removes it from the queue (whatever
its position), and delivers no ordinary event: the remaining queue is the
original one with the registration-named events taken out, in order. -/
theorem c1_registration_priority {P : Type} (f : P → String) (st : BridgeState P)
    (e : QueuedEvent P)
    (hreg : st.isBridgeRegistered = false)
    (hsent : st.isBridgeRegistrationSent = false)
    (hf : st.sendQueue.find? (fun x => x.name == REGISTRATION_EVENT_NAME) = some e) :
    (tick f st).2 = some e ∧
    e.name = REGISTRATION_EVENT_NAME ∧
    e ∉ (tick f st).1.sendQueue ∧
    (tick f st).1.sendQueue
      = st.sendQueue.filter (fun x => x.name != REGISTRATION_EVENT_NAME) := by
  have ht := tick_unreg_found f st e hreg hsent hf
  have hname : e.name = REGISTRATION_EVENT_NAME := by
    have := List.find?_some hf
    simpa using this
  refine ⟨by rw [ht], hname, ?_, by rw [ht]; rfl⟩
  rw [ht]
  intro hmem
  have := (List.mem_filter.mp hmem).2
  simp [hname] at this

/-- A concrete unregistered state whose queue holds the registration event
between two ordinary events. -/
def mixedQueueState : BridgeState Unit :=
  { noRegEventState with sendQueue :=
      [⟨"ping", none, "i1"⟩, ⟨REGISTRATION_EVENT_NAME, none, "r0"⟩,
       ⟨"pong", none, "i2"⟩] }

/-- Witness for C1 at a concrete state with the registration event queued
in second position. -/
theorem c1_registration_priority_witness :
    (tick (fun _ : Unit => "") mixedQueueState).2
        = some ⟨REGISTRATION_EVENT_NAME, none, "r0"⟩ ∧
    (⟨REGISTRATION_EVENT_NAME, none, "r0"⟩ : QueuedEvent Unit).name
        = REGISTRATION_EVENT_NAME ∧
    (⟨REGISTRATION_EVENT_NAME, none, "r0"⟩ : QueuedEvent Unit)
        ∉ (tick (fun _ : Unit => "") mixedQueueState).1.sendQueue ∧
    (tick (fun _ : Unit => "") mixedQueueState).1.sendQueue
      = mixedQueueState.sendQueue.filter
          (fun x => x.name != REGISTRATION_EVENT_NAME) :=
  c1_registration_priority (fun _ : Unit => "") mixedQueueState
    ⟨REGISTRATION_EVENT_NAME, none, "r0"⟩ rfl rfl (by decide)

/-- C10: while unregistered with the sent flag false, if the queue holds
two or more registration-named events, one tick removes every one of them
(the queue keeps no registration-named event), delivers only the first,
and the exposed correlation storage gains exactly the entry of the delivered
event — the other registration-named events are dropped without being
delivered or stored. -/
theorem c10_duplicate_registration_events_dropped {P : Type} (f : P → String)
    (st : BridgeState P) (e : QueuedEvent P)
    (hreg : st.isBridgeRegistered = false)
    (hsent : st.isBridgeRegistrationSent = false)
    (hf : st.sendQueue.find? (fun x => x.name == REGISTRATION_EVENT_NAME) = some e)
    (hmulti : 2 ≤ st.sendQueue.countP (fun x => x.name == REGISTRATION_EVENT_NAME)) :
    (tick f st).1.sendQueue.countP (fun x => x.name == REGISTRATION_EVENT_NAME) = 0 ∧
    (tick f st).2 = some e ∧
    (tick f st).1.exposedStorage
      = storageSet st.exposedStorage e.id (e.data.map f) := by
  have ht := tick_unreg_found f st e hreg hsent hf
  refine ⟨?_, by rw [ht], by rw [ht]; rfl⟩
  rw [ht]
  show (st.sendQueue.filter (fun x => x.name != REGISTRATION_EVENT_NAME)).countP _ = 0
  rw [List.countP_eq_zero]
  intro a ha
  have := (List.mem_filter.mp ha).2
  simpa using this

/-- A concrete unregistered state whose queue holds two registration-named
events around an ordinary one. -/
def doubleRegState : BridgeState Unit :=
  { noRegEventState with sendQueue :=
      [⟨REGISTRATION_EVENT_NAME, none, "r1"⟩, ⟨"ping", none, "i1"⟩,
       ⟨REGISTRATION_EVENT_NAME, none, "r2"⟩] }

/-- Witness for C10 at a concrete state with two registration events. -/
theorem c10_duplicate_registration_events_dropped_witness :
    (tick (fun _ : Unit => "") doubleRegState).1.sendQueue.countP
        (fun x => x.name == REGISTRATION_EVENT_NAME) = 0 ∧
    (tick (fun _ : Unit => "") doubleRegState).2
        = some ⟨REGISTRATION_EVENT_NAME, none, "r1"⟩ ∧
    (tick (fun _ : Unit => "") doubleRegState).1.exposedStorage
      = storageSet doubleRegState.exposedStorage "r1"
          ((none : Option Unit).map (fun _ => "")) :=
  c10_duplicate_registration_events_dropped (fun _ : Unit => "") doubleRegState
    ⟨REGISTRATION_EVENT_NAME, none, "r1"⟩ rfl rfl (by decide) (by decide)

/-- The drain tick never changes `_isBridgeRegistered`, and can only turn
`_isBridgeRegistrationSent` on, never off. -/
theorem tick_state_flags {P : Type} (f : P → String) (st : BridgeState P) :
    (tick f st).1.isBridgeRegistered = st.isBridgeRegistered ∧
    ((tick f st).1.isBridgeRegistrationSent = st.isBridgeRegistrationSent ∨
      (tick f st).1.isBridgeRegistrationSent = true) := by
  cases hq : st.sendQueue with
  | nil =>
    rw [tick_empty f st hq]
    exact ⟨rfl, Or.inl rfl⟩
  | cons e rest =>
    by_cases hreg : st.isBridgeRegistered = true
    · rw [tick_registered f st e rest hq hreg]
      exact ⟨rfl, Or.inl rfl⟩
    · have hreg' : st.isBridgeRegistered = false := by simpa using hreg
      by_cases hsent : st.isBridgeRegistrationSent = true
      · rw [tick_sent_waiting f st hreg' hsent (by simp [hq])]
        exact ⟨rfl, Or.inl rfl⟩
      · have hsent' : st.isBridgeRegistrationSent = false := by simpa using hsent
        cases hfind : st.sendQueue.find? (fun x => x.name == REGISTRATION_EVENT_NAME) with
        | some e' =>
          rw [tick_unreg_found f st e' hreg' hsent' hfind]
          exact ⟨rfl, Or.inr rfl⟩
        | none =>
          rw [tick_unreg_not_found f st hreg' hsent' (by simp [hq]) hfind]
          exact ⟨rfl, Or.inr rfl⟩

/-- An inbound host notification can only turn `_isBridgeRegistered` on,
and never touches `_isBridgeRegistrationSent`. -/
theorem hostSend_state_flags {P : Type} (st : BridgeState P) (n : String)
    (d : List (String × String)) :
    ((hostSend st n d).1.isBridgeRegistered = st.isBridgeRegistered ∨
      (hostSend st n d).1.isBridgeRegistered = true) ∧
    (hostSend st n d).1.isBridgeRegistrationSent = st.isBridgeRegistrationSent := by
  unfold hostSend
  split
  · exact ⟨Or.inr rfl, rfl⟩
  · exact ⟨Or.inl rfl, rfl⟩

theorem send_sendQueue {P : Type} (st : BridgeState P) (n : String) (d : Option P)
    (i : String) : (send st n d i).sendQueue = st.sendQueue ++ [⟨n, d, i⟩] := by
  unfold send; rw [utilizeQueue_sendQueue]

theorem send_isBridgeRegistered {P : Type} (st : BridgeState P) (n : String)
    (d : Option P) (i : String) :
    (send st n d i).isBridgeRegistered = st.isBridgeRegistered := by
  unfold send; rw [utilizeQueue_isBridgeRegistered]

theorem send_isBridgeRegistrationSent {P : Type} (st : BridgeState P) (n : String)
    (d : Option P) (i : String) :
    (send st n d i).isBridgeRegistrationSent = st.isBridgeRegistrationSent := by
  unfold send; rw [utilizeQueue_isBridgeRegistrationSent]

/-- C5: the registration state machine is monotonic under every operation
(drain tick, `send`, inbound notification): the rank
`Unregistered(0) → RegistrationSent(1) → Registered(2)` never decreases,
and each of the two flags, once `true`, never becomes `false`. -/
theorem c5_registration_monotonic {P : Type} (f : P → String) (st : BridgeState P)
    (op : Op P) :
    regRank st ≤ regRank (applyOp f st op) ∧
    st.isBridgeRegistered ≤ (applyOp f st op).isBridgeRegistered ∧
    st.isBridgeRegistrationSent ≤ (applyOp f st op).isBridgeRegistrationSent := by
  cases op with
  | tick =>
    obtain ⟨hr, hs⟩ := tick_state_flags f st
    refine ⟨?_, ?_, ?_⟩
    · unfold regRank
      rcases hs with h | h <;>
        rw [show applyOp f st Op.tick = (tick f st).1 from rfl, hr, h] <;>
        cases st.isBridgeRegistered <;> cases st.isBridgeRegistrationSent <;> simp
    · rw [show applyOp f st Op.tick = (tick f st).1 from rfl, hr]
    · rw [show applyOp f st Op.tick = (tick f st).1 from rfl]
      rcases hs with h | h <;> rw [h]
      · cases st.isBridgeRegistrationSent <;> simp
  | send n d i =>
    refine ⟨?_, ?_, ?_⟩
    · unfold regRank
      rw [show applyOp f st (Op.send n d i) = send st n d i from rfl,
        send_isBridgeRegistered, send_isBridgeRegistrationSent]
    · rw [show applyOp f st (Op.send n d i) = send st n d i from rfl,
        send_isBridgeRegistered]
    · rw [show applyOp f st (Op.send n d i) = send st n d i from rfl,
        send_isBridgeRegistrationSent]
  | inbound n d =>
    obtain ⟨hr, hs⟩ := hostSend_state_flags st n d
    refine ⟨?_, ?_, ?_⟩
    · unfold regRank
      rcases hr with h | h <;>
        rw [show applyOp f st (Op.inbound n d) = (hostSend st n d).1 from rfl, hs, h] <;>
        cases st.isBridgeRegistered <;> cases st.isBridgeRegistrationSent <;> simp
    · rw [show applyOp f st (Op.inbound n d) = (hostSend st n d).1 from rfl]
      rcases hr with h | h <;> rw [h]
      · cases st.isBridgeRegistered <;> simp
    · rw [show applyOp f st (Op.inbound n d) = (hostSend st n d).1 from rfl, hs]

/-- While registered, `n` consecutive ticks deliver exactly the first `n`
queued events in order, and leave the rest of the queue (registration
stays on). -/
theorem runTicks_registered {P : Type} (f : P → String) (n : Nat)
    (st : BridgeState P) (hreg : st.isBridgeRegistered = true) :
    (runTicks f n st).2 = st.sendQueue.take n ∧
    (runTicks f n st).1.sendQueue = st.sendQueue.drop n ∧
    (runTicks f n st).1.isBridgeRegistered = true := by
  induction n generalizing st with
  | zero => exact ⟨rfl, rfl, hreg⟩
  | succ n ih =>
    cases hq : st.sendQueue with
    | nil =>
      have ht := tick_empty f st hq
      have ih' := ih { st with intervalActive := false } hreg
      rw [show ({ st with intervalActive := false } : BridgeState P).sendQueue
        = st.sendQueue from rfl, hq] at ih'
      refine ⟨?_, ?_, ?_⟩ <;>
        simp only [runTicks, ht, Option.toList_none, List.nil_append, hq] <;>
        simp [ih'.1, ih'.2.1, ih'.2.2]
    | cons e rest =>
      have ht := tick_registered f st e rest hq hreg
      have ih' := ih (deliver f
        { st with registerHandlerAttached := false, sendQueue := rest } e) hreg
      refine ⟨?_, ?_, ?_⟩ <;>
        simp only [runTicks, ht, Option.toList_some, List.singleton_append] <;>
        simp [ih'.1, ih'.2.1, ih'.2.2, hq]

/-- Lemma: `sendAll` appends the sent events to the queue, in call order, and
leaves the registration flag untouched. -/
theorem sendAll_spec {P : Type} (st : BridgeState P) (es : List (QueuedEvent P)) :
    (sendAll st es).sendQueue = st.sendQueue ++ es ∧
    (sendAll st es).isBridgeRegistered = st.isBridgeRegistered := by
  induction es generalizing st with
  | nil => simp [sendAll]
  | cons e es ih =>
    have ih' := ih (send st e.name e.data e.id)
    constructor
    · rw [sendAll, ih'.1, send_sendQueue, List.append_assoc, List.singleton_append]
    · rw [sendAll, ih'.2, send_isBridgeRegistered]

/-- C3: after the bridge is registered, delivery is strict FIFO: for any
sequence of `send` calls made from a registered state (here with an empty
queue), running one tick per sent event delivers exactly those events in
their enqueue order. -/
theorem c3_fifo_after_registration {P : Type} (f : P → String)
    (st : BridgeState P) (es : List (QueuedEvent P))
    (hreg : st.isBridgeRegistered = true) (hq : st.sendQueue = []) :
    (runTicks f es.length (sendAll st es)).2 = es := by
  have hs := sendAll_spec st es
  have hr := runTicks_registered f es.length (sendAll st es) (by rw [hs.2]; exact hreg)
  rw [hr.1, hs.1, hq, List.nil_append, List.take_length]

/-- A concrete registered state with an idle (empty) queue. -/
def registeredIdleState : BridgeState Unit :=
  { sendQueue := []
    isBridgeRegistered := true
    isBridgeRegistrationSent := true
    intervalActive := false
    startedTasks := 1
    registerHandlerAttached := false
    exposedStorage := []
    storage := [] }

/-- Witness for C3: two events sent after registration are delivered in
enqueue order. -/
theorem c3_fifo_after_registration_witness :
    (runTicks (fun _ : Unit => "") 2 (sendAll registeredIdleState
        [⟨"first", none, "i1"⟩, ⟨"second", none, "i2"⟩])).2
      = [⟨"first", none, "i1"⟩, ⟨"second", none, "i2"⟩] :=
  c3_fifo_after_registration (fun _ : Unit => "") registeredIdleState
    [⟨"first", none, "i1"⟩, ⟨"second", none, "i2"⟩] rfl rfl

/-- While the registration handler stays attached, every inbound
registration-named notification re-fires the handler: the handler stays
attached, each notification emits one `BRIDGE_REGISTER_EVENT`, and the
registered flag is on as soon as at least one notification arrived. -/
theorem runInbound_registration_repeat {P : Type} (st : BridgeState P) (k : Nat)
    (hatt : st.registerHandlerAttached = true) :
    (runInbound st (List.replicate k (REGISTRATION_EVENT_NAME,
        ([] : List (String × String))))).1.registerHandlerAttached = true ∧
    (runInbound st (List.replicate k (REGISTRATION_EVENT_NAME,
        ([] : List (String × String))))).2.count BRIDGE_REGISTER_EVENT = k ∧
    (runInbound st (List.replicate k (REGISTRATION_EVENT_NAME,
        ([] : List (String × String))))).1.isBridgeRegistered
      = (st.isBridgeRegistered || !(k == 0)) := by
  induction k generalizing st with
  | zero =>
    refine ⟨hatt, rfl, ?_⟩
    simp [runInbound]
  | succ k ih =>
    have hstep : hostSend st REGISTRATION_EVENT_NAME []
        = ({ st with
              isBridgeRegistered := true
              storage := mergeObjects st.storage [] },
           [BRIDGE_SEND_EVENT, BRIDGE_REGISTER_EVENT]) := by
      simp [hostSend, hatt]
    have ih' := ih
      { st with
        isBridgeRegistered := true
        storage := mergeObjects st.storage [] } hatt
    have hcount : List.count BRIDGE_REGISTER_EVENT
        [BRIDGE_SEND_EVENT, BRIDGE_REGISTER_EVENT] = 1 := by decide
    refine ⟨?_, ?_, ?_⟩
    · simp only [List.replicate_succ, runInbound, hstep]
      exact ih'.1
    · simp only [List.replicate_succ, runInbound, hstep, List.count_append,
        ih'.2.1, hcount]
      omega
    · simp only [List.replicate_succ, runInbound, hstep]
      rw [ih'.2.2]
      simp

/-- C2 counterexample: on the freshly constructed bridge, after the first
tick delivers the registration event, two inbound registration-named
notifications arrive before the next tick; each one fires the (still
attached) handler, so two `bridgeRegister` notifications are emitted — not
exactly one as claimed. -/
theorem c2_counterexample :
    ((runInbound (tick (fun _ : Unit => "") (initialBridge Unit "r0")).1
        [(REGISTRATION_EVENT_NAME, []), (REGISTRATION_EVENT_NAME, [])]).2.count
          BRIDGE_REGISTER_EVENT) = 2 := by
  decide

/-- C2 amended: receiving `k ≥ 1` inbound registration-named notifications
(before any tick detaches the handler) makes the bridge registered — the
registered flag is monotone, so the `false → true` transition happens
exactly once — but emits one `bridgeRegister` notification per received
notification (`k` in total, not one): the handler is detached only by a
later drain tick on a non-empty queue, never by the notifications
themselves. -/
theorem c2_registration_reply_emissions {P : Type} (st : BridgeState P) (k : Nat)
    (hatt : st.registerHandlerAttached = true) (hk : 1 ≤ k) :
    (runInbound st (List.replicate k (REGISTRATION_EVENT_NAME,
        ([] : List (String × String))))).1.isBridgeRegistered = true ∧
    (runInbound st (List.replicate k (REGISTRATION_EVENT_NAME,
        ([] : List (String × String))))).1.registerHandlerAttached = true ∧
    (runInbound st (List.replicate k (REGISTRATION_EVENT_NAME,
        ([] : List (String × String))))).2.count BRIDGE_REGISTER_EVENT = k := by
  obtain ⟨h1, h2, h3⟩ := runInbound_registration_repeat st k hatt
  refine ⟨?_, h1, h2⟩
  rw [h3]
  have hk0 : k ≠ 0 := by omega
  simp [hk0]

/-- Witness for the amended C2 at the constructed bridge with two inbound
registration notifications. -/
theorem c2_registration_reply_emissions_witness :
    (runInbound (initialBridge Unit "r0")
        (List.replicate 2 (REGISTRATION_EVENT_NAME,
          ([] : List (String × String))))).1.isBridgeRegistered = true ∧
    (runInbound (initialBridge Unit "r0")
        (List.replicate 2 (REGISTRATION_EVENT_NAME,
          ([] : List (String × String))))).1.registerHandlerAttached = true ∧
    (runInbound (initialBridge Unit "r0")
        (List.replicate 2 (REGISTRATION_EVENT_NAME,
          ([] : List (String × String))))).2.count BRIDGE_REGISTER_EVENT = 2 :=
  c2_registration_reply_emissions (initialBridge Unit "r0") 2 (by decide) (by decide)

/-- C7 counterexample: with a parser that rejects the payload
`"not json"`, the data field of the created event is the raw unparsed string —
it is not absent/null as the claim states (the error is reported, though).
-/
theorem c7_counterexample :
    (createEvent (fun _ => (none : Option Unit)) BRIDGE_SEND_EVENT "evt"
        (some "not json")).1.data ≠ EvtData.absent ∧
    (createEvent (fun _ => (none : Option Unit)) BRIDGE_SEND_EVENT "evt"
        (some "not json")).1.data = EvtData.raw "not json" ∧
    (createEvent (fun _ => (none : Option Unit)) BRIDGE_SEND_EVENT "evt"
        (some "not json")).2 = true := by
  refine ⟨by decide, rfl, rfl⟩

/-- C7 amended: for every inbound notification whose non-empty serialized
data fails to parse, the failure is recovered locally: the error is
reported, and the event still propagates to listeners — but with its data
field holding the raw unparsed string, not an absent/null field; the
handler is total, so nothing is thrown. -/
theorem c7_malformed_payload_recovered {J : Type} (parse : String → Option J)
    (eventType name s : String) (hs : s ≠ "") (hp : parse s = none) :
    createEvent parse eventType name (some s)
      = (⟨eventType, name, EvtData.raw s⟩, true) := by
  simp [createEvent, hs, hp]

/-- Witness for the amended C7 at a concrete failing payload. -/
theorem c7_malformed_payload_recovered_witness :
    createEvent (fun _ => (none : Option Unit)) BRIDGE_SEND_EVENT "evt"
        (some "not json")
      = (⟨BRIDGE_SEND_EVENT, "evt", EvtData.raw "not json"⟩, true) :=
  c7_malformed_payload_recovered (fun _ => (none : Option Unit)) BRIDGE_SEND_EVENT
    "evt" "not json" (by decide) rfl

/-- Witness for C8 at concrete states. -/
theorem c8_single_periodic_task_witness :
    ((send noRegEventState "a" none "i2").intervalActive = true ∧
      (send noRegEventState "a" none "i2").startedTasks
        = noRegEventState.startedTasks) ∧
    ((tick (fun _ : Unit => "") { noRegEventState with sendQueue := [] }).1.intervalActive
        = false ∧
      (tick (fun _ : Unit => "") { noRegEventState with sendQueue := [] }).1.startedTasks
        = ({ noRegEventState with sendQueue := [] } : BridgeState Unit).startedTasks) ∧
    ((send { noRegEventState with intervalActive := false } "b" none "i3").intervalActive
        = true ∧
      (send { noRegEventState with intervalActive := false } "b" none "i3").startedTasks
        = ({ noRegEventState with intervalActive := false } : BridgeState Unit).startedTasks
            + 1) :=
  c8_single_periodic_task (fun _ : Unit => "") noRegEventState
    { noRegEventState with sendQueue := [] }
    { noRegEventState with intervalActive := false }
    rfl rfl rfl "a" "b" none none "i2" "i3"

end WWBridge
